import Mathlib

/-!
Shallow embedding of the twitchwatch repository: `streams.py` (the one-shot
poll / diff / cache run) and `broadcasters.py` (the IRC session command
handling and the D-Bus notifier).

Conventions: timestamps are integer seconds since the epoch (UTC); the exact
float division in `stream_is_recent` is modelled over `ℚ` (for the magnitudes
involved the IEEE comparison agrees with the rational one); Python dicts are
insertion-ordered association lists; Python exceptions are `Except` errors.
-/

/-- Broadcast record as used by `streams.py`: only the fields the code reads,
namely `id`, `user_id` and `started_at`. In the JSON, `started_at` is an
ISO-8601 string that `parse_date_string` (streams.py lines 24-28) turns into
a UTC datetime; it is embedded here directly as seconds since the epoch. -/
structure TStream where
  id : String
  user_id : String
  started_at : Int
deriving DecidableEq

/-- Python exceptions that can escape the embedded code paths. -/
inductive PyErr
  | clientError
  | attributeError
  | typeError
deriving DecidableEq

/-- Embeds `stream_is_recent` (streams.py lines 32-43). The code computes
`stream_age = now - stream_start_time` and then tests
`stream_age.seconds / 3600 <= max_age`. Python `timedelta.seconds` is the
seconds-within-the-day component, i.e. the total age in seconds modulo 86400
with floor convention, which is what `Int.emod` (the `%` below) computes.
`max_age` is the integer number of hours the CLI documents. The float
division is correctly rounded and the seconds component is below 86400, so
the Python test holds exactly when the seconds component is at most
`max_age * 3600`, the integer form used here. -/
def stream_is_recent (now : Int) (stream : TStream) (max_age : Int) : Bool :=
  decide ((now - stream.started_at) % 86400 ≤ max_age * 3600)

/-- Lookup in an insertion-ordered association list (Python `d[k]` / `d.get`). -/
def pyLookup {α : Type} : List (String × α) → String → Option α
  | [], _ => none
  | (k, v) :: rest, q => if k = q then some v else pyLookup rest q

/-- Python `d[k] = v`: replace the value in place if the key is present
(keeping its position), else append the new binding. -/
def pyDictInsert {α : Type} : List (String × α) → String → α → List (String × α)
  | [], k, v => [(k, v)]
  | (k0, v0) :: rest, k, v =>
    if k0 = k then (k0, v) :: rest else (k0, v0) :: pyDictInsert rest k v

/-- Remove the binding for a key, if present (the removal half of `d.pop`). -/
def pyRemoveKey {α : Type} : List (String × α) → String → List (String × α)
  | [], _ => []
  | (k0, v0) :: rest, k => if k0 = k then rest else (k0, v0) :: pyRemoveKey rest k

/-- Python `d.get(k, dflt)`. -/
def pyDictGet {α : Type} (d : List (String × α)) (k : String) (dflt : α) : α :=
  match pyLookup d k with
  | some v => v
  | none => dflt

/-- The dict comprehension `{stream["user_id"]: stream for stream in
previous_streams}` (streams.py lines 114-118): later duplicates overwrite the
value but keep the first-insertion position, as Python dicts do. -/
def pyDictOfStreams (l : List TStream) : List (String × TStream) :=
  l.foldl (fun d s => pyDictInsert d s.user_id s) []

/-- The loop over `current_streams` (streams.py lines 121-129). For each
current stream the matching previous record is popped by `user_id`
(`previous_streams_by_user_id.pop(stream["user_id"], None)`, modelled as a
lookup plus `pyRemoveKey`); a current stream is appended to `new_streams`
exactly when a previous record existed, its `id` differs, and the previous
record is not recent. Returns the remaining dict and the new list. -/
def diffLoop (max_age : Int) (now : Int) :
    List (String × TStream) → List TStream → List TStream →
    List (String × TStream) × List TStream
  | d, acc, [] => (d, acc)
  | d, acc, s :: rest =>
    match pyLookup d s.user_id with
    | some p =>
      if p.id ≠ s.id ∧ stream_is_recent now p max_age = false then
        diffLoop max_age now (pyRemoveKey d s.user_id) (acc ++ [s]) rest
      else
        diffLoop max_age now (pyRemoveKey d s.user_id) acc rest
    | none => diffLoop max_age now d acc rest

/-- The diff block of `main` (streams.py lines 112-138): if the previous list
is empty, every current stream is new (line 138) and no previous records
remain (the variable keeps its initial `[]`); otherwise run `diffLoop` over
the current streams and return the new streams together with the values left
in the dict, in insertion order (lines 132-136). -/
def noveltyDiff (previous current : List TStream) (max_age : Int) (now : Int) :
    List TStream × List TStream :=
  if previous.isEmpty then (current, [])
  else
    let r := diffLoop max_age now (pyDictOfStreams previous) [] current
    (r.2, r.1.map Prod.snd)

/-- State of the cache file on disk, as `read_stream_cache` can encounter it:
absent, present but unreadable (`open` raises), present with content `json.load`
rejects (`ValueError`), or present with a valid JSON object. -/
inductive FileState
  | missing
  | unreadable
  | malformed
  | validObj (entries : List (String × List TStream))
deriving DecidableEq

/-- What `read_stream_cache` hands back to `main`: either a JSON object
(a Python dict) or a Python list (the `return []` on the unreadable path).
Only the dict/list distinction and the dict entries matter downstream. -/
inductive CacheData
  | obj (entries : List (String × List TStream))
  | arr
deriving DecidableEq

/-- Embeds `read_stream_cache` (streams.py lines 47-72): a missing file skips
the body and returns the initial `{}`; a file that `open` cannot read returns
the literal `[]` (a list, not a dict); content that `json.load` rejects is
caught as `ValueError` and leaves the initial `{}`; a valid JSON object is
returned as parsed. -/
def read_stream_cache : FileState → CacheData
  | FileState.missing => CacheData.obj []
  | FileState.unreadable => CacheData.arr
  | FileState.malformed => CacheData.obj []
  | FileState.validObj m => CacheData.obj m

/-- Modelled from the spec: `get_current_streams` is imported from
`client.py`, which is not among the sources. The spec (sections 2, 6, 7) says
Platform Client failures propagate as "snapshot unavailable" and abort the
run, so the client outcome is supplied to `mainRun` as an `Except` value
whose error aborts the run like an uncaught Python exception raised at
streams.py line 99. -/
abbrev ClientOutcome : Type := Except PyErr (List TStream)

/-- Outcome of a completed run of `main`: the list of new streams written to
the notification socket (empty when nothing was dispatched) and the cache
content written by `save_stream_cache` (`none` when no save happened). -/
structure MainResult where
  dispatched : List TStream
  savedCache : Option (List (String × List TStream))
deriving DecidableEq

/-- Embeds `main` (streams.py lines 94-178).
With an empty current snapshot the whole diff block is skipped, so
`previous_streams` keeps its initial `[]` and the cache entry is rewritten to
`[] + []` (the filter over the empty list never evaluates `stream_is_recent`,
so the unbound `max_age` raises nothing); on a Python-list cache value the
write `stream_cache[game] = ...` raises `TypeError`.
With a nonempty current snapshot, `stream_cache.get(game, [])` raises
`AttributeError` on a Python-list cache value; otherwise the diff runs, the
new streams are sent to the socket when one is configured (a failed connect
logs and returns early, before the cache save), and unless `--no-cache` is
set the entry for the game is replaced by the recent unmatched previous
records followed by all current streams. -/
def mainRun (client : ClientOutcome) (fs : FileState) (game : String)
    (max_age : Int) (no_cache socketCfg sockOk : Bool) (now : Int) :
    Except PyErr MainResult :=
  match client with
  | Except.error e => Except.error e
  | Except.ok current_streams =>
    let stream_cache := read_stream_cache fs
    if current_streams.isEmpty then
      if no_cache then Except.ok ⟨[], none⟩
      else
        match stream_cache with
        | CacheData.arr => Except.error PyErr.typeError
        | CacheData.obj m => Except.ok ⟨[], some (pyDictInsert m game [])⟩
    else
      match stream_cache with
      | CacheData.arr => Except.error PyErr.attributeError
      | CacheData.obj m =>
        let previous_streams := pyDictGet m game []
        let nd := noveltyDiff previous_streams current_streams max_age now
        if !nd.1.isEmpty && socketCfg && !sockOk then
          Except.ok ⟨[], none⟩
        else
          let dispatched := if !nd.1.isEmpty && socketCfg then nd.1 else []
          if no_cache then Except.ok ⟨dispatched, none⟩
          else
            Except.ok ⟨dispatched, some (pyDictInsert m game
              (nd.2.filter (fun s => stream_is_recent now s max_age)
                ++ current_streams))⟩

/-- The `channel` sub-object of a stream as `IrcBroadcaster.handle_read` reads
it: `stream["channel"]["name"]` and `stream["channel"]["url"]`. -/
structure ChatChannel where
  name : String
  url : String
deriving DecidableEq

/-- A stream record as consumed by the IRC command path. -/
structure ChatStream where
  channel : ChatChannel
deriving DecidableEq

/-- Session state of `IrcBroadcaster` relevant to command handling:
`_irc_room`, `_irc_nick`, `_blacklist`, `_games`, `_irc_registered`,
`_last_check`, `_last_check_limit`, plus a flag recording that `close()` was
called on the underlying dispatcher. -/
structure IrcState where
  room : String
  nick : String
  blacklist : List String
  games : List String
  registered : Bool
  last_check : Option Int
  last_check_limit : Int
  closed : Bool
deriving DecidableEq

/-- Observable actions of the session on its socket. -/
inductive IrcEffect
  | send (msg : String)
  | close
deriving DecidableEq

/-- True exactly on `send` effects. -/
def isSendEffect : IrcEffect → Bool
  | IrcEffect.send _ => true
  | IrcEffect.close => false

/-- The rate-limit test and update of `handle_read` (broadcasters.py lines
99-100): allowed when `_last_check is None or now >= _last_check +
timedelta(seconds=_last_check_limit)`; when allowed, `_last_check` is set to
now, otherwise it is left as it was. Returns the decision and the new
`_last_check`. -/
def rateCheck (last : Option Int) (limit now : Int) : Bool × Option Int :=
  match last with
  | none => (true, some now)
  | some t => if t + limit ≤ now then (true, some now) else (false, some t)

/-- The CPython semantics of `for stream in current_streams: if <blacklisted>:
current_streams.remove(stream)` (broadcasters.py lines 105-108): the list
iterator keeps a cursor that advances once per iteration even when the body
removes the just-yielded element (shifting the remainder left), and `remove`
deletes the first element equal to its argument. -/
def pyFilterRemoveGo {α : Type} [DecidableEq α] (p : α → Bool) :
    Nat → Nat → List α → List α
  | 0, _, l => l
  | fuel + 1, i, l =>
    if h : i < l.length then
      if p (l.get ⟨i, h⟩) then
        pyFilterRemoveGo p fuel (i + 1) (l.erase (l.get ⟨i, h⟩))
      else pyFilterRemoveGo p fuel (i + 1) l
    else l

/-- The remove-while-iterating scan started at cursor 0. The first argument
of `pyFilterRemoveGo` only drives structural recursion: the number of
remaining iterations is at most `l.length - i`, which the initial fuel
`l.length` always bounds, so the out-of-fuel branch is never taken. -/
def pyFilterRemove {α : Type} [DecidableEq α] (p : α → Bool) (l : List α) :
    List α :=
  pyFilterRemoveGo p l.length 0 l

/-- Embeds the matched-command branch of `IrcBroadcaster.handle_read`
(broadcasters.py lines 91-123), taking the `(user, message)` pair the regex
extracted from an inbound room message addressed to the nickname. A literal
`quit` closes the connection at once. Otherwise the rate limit is consulted;
when denied the line is only logged; when allowed, `_last_check` is advanced,
the Platform Client result for the named game (`apiResult`) has blacklisted
channels removed by the remove-while-iterating scan, and a single reply line
is sent listing the remaining channel URLs or reporting that none are live
(`_irc_send`, line 132, formats it as `PRIVMSG <room> : <msg>`). -/
def handleCommand (st : IrcState) (user message : String) (now : Int)
    (apiResult : List ChatStream) : IrcState × List IrcEffect :=
  if message = "quit" then
    (⟨st.room, st.nick, st.blacklist, st.games, st.registered, st.last_check,
      st.last_check_limit, true⟩, [IrcEffect.close])
  else
    let r := rateCheck st.last_check st.last_check_limit now
    if r.1 then
      let current_streams :=
        pyFilterRemove (fun s => st.blacklist.contains s.channel.name) apiResult
      let stream_urls := current_streams.map (fun s => s.channel.url)
      let msg :=
        if stream_urls.isEmpty then
          user ++ ": There are no " ++ message ++ " streams."
        else
          user ++ ": Current " ++ message ++ " streams include "
            ++ String.intercalate ", " stream_urls
      (⟨st.room, st.nick, st.blacklist, st.games, st.registered, r.2,
        st.last_check_limit, st.closed⟩,
       [IrcEffect.send ("PRIVMSG " ++ st.room ++ " : " ++ msg ++ "\r\n")])
    else
      (st, [])

/-- A stream record as consumed by `DbusBroadcaster.send_notification`. -/
structure DStream where
  user_name : String
  game_name : String
  title : String
deriving DecidableEq

/-- Observable events of a `DbusBroadcaster.broadcast` run: an attempted
desktop notification for an item, or a reconnect (`get_interface`). -/
inductive DbusEv
  | notifyAttempt (s : DStream)
  | reconnect
deriving DecidableEq

/-- Embeds `DbusBroadcaster.broadcast` (broadcasters.py lines 183-194).
`fails s` says whether `send_notification(stream)` raises `DBusException` for
that item. In the `except dbus.exceptions.DBusException` handler the code
evaluates `self.logger.warn(...)`, but `DbusBroadcaster.__init__` only
defines `self.log`, so the attribute lookup raises `AttributeError` inside
the handler; that exception is not caught, so `get_interface` and the retry
never run and the loop aborts. Returns the events that happened in order and
the exception that escaped, if any. -/
def dbusBroadcast (fails : DStream → Bool) : List DStream → List DbusEv × Option PyErr
  | [] => ([], none)
  | s :: rest =>
    if fails s then ([DbusEv.notifyAttempt s], some PyErr.attributeError)
    else
      let r := dbusBroadcast fails rest
      (DbusEv.notifyAttempt s :: r.1, r.2)

/-- Previous record whose stream started 30 hours before diff time. -/
def pOld : TStream := ⟨"s1", "u1", 0⟩

/-- Current record of the same broadcaster as `pOld` with a new stream id. -/
def cNew : TStream := ⟨"s2", "u1", 108000⟩

/-- Previous record of a broadcaster absent from the current snapshot, 30
hours old at diff time. -/
def pFar : TStream := ⟨"s9", "u2", 0⟩

/-- Current record of an unrelated broadcaster. -/
def cOther : TStream := ⟨"s3", "u3", 108000⟩

/-- Previous record of broadcaster u2, fresh at diff time. -/
def pRecent : TStream := ⟨"s2", "u2", 108000⟩

/-- Current record of broadcaster u1, who has no previous record. -/
def cFresh : TStream := ⟨"s1", "u1", 108000⟩

/-- A stream on blacklisted channel `a`. -/
def chA : ChatStream := ⟨⟨"a", "ua"⟩⟩

/-- A stream on blacklisted channel `b`. -/
def chB : ChatStream := ⟨⟨"b", "ub"⟩⟩

/-- Joined, registered session whose blacklist holds channels `a` and `b`,
with no command yet issued. -/
def stC6 : IrcState := ⟨"#room", "bot", ["a", "b"], [], true, none, 30, false⟩

/-- Joined, registered session with an empty blacklist. -/
def stC7 : IrcState := ⟨"#room", "bot", [], [], true, none, 30, false⟩

/-- Session whose last permitted command was at time 100, limit 30 seconds. -/
def stC10 : IrcState := ⟨"#room", "bot", [], [], true, some 100, 30, false⟩

/-- Item whose desktop notification raises `DBusException`. -/
def ds1 : DStream := ⟨"alice", "GameA", "titleA"⟩

/-- Item whose desktop notification would succeed. -/
def ds2 : DStream := ⟨"bob", "GameB", "titleB"⟩

/-- Failure oracle for the D-Bus run: only the notification for `ds1` raises. -/
def dFails : DStream → Bool := fun s => s.user_name == "alice"

lemma pyLookup_insert {α : Type} (d : List (String × α)) (k q : String) (v : α) :
    pyLookup (pyDictInsert d k v) q = if q = k then some v else pyLookup d q := by
  induction d with
  | nil =>
    by_cases h : q = k
    · subst h; simp [pyDictInsert, pyLookup]
    · have h2 : ¬ k = q := fun hh => h hh.symm
      simp [pyDictInsert, pyLookup, h, h2]
  | cons hd tl ih =>
    obtain ⟨a, b⟩ := hd
    by_cases hak : a = k
    · subst hak
      by_cases haq : a = q
      · subst haq; simp [pyDictInsert, pyLookup]
      · have hqa : ¬ q = a := fun hh => haq hh.symm
        simp [pyDictInsert, pyLookup, haq, hqa]
    · by_cases haq : a = q
      · subst haq
        simp [pyDictInsert, pyLookup, hak]
      · simp [pyDictInsert, pyLookup, hak, haq, ih]

lemma pyLookup_removeKey_none {α : Type} (d : List (String × α)) (j k : String)
    (h : pyLookup d k = none) : pyLookup (pyRemoveKey d j) k = none := by
  induction d with
  | nil => simpa [pyRemoveKey] using h
  | cons hd tl ih =>
    obtain ⟨a, b⟩ := hd
    by_cases hak : a = k
    · subst hak; simp [pyLookup] at h
    · simp only [pyLookup, if_neg hak] at h
      by_cases haj : a = j
      · simpa [pyRemoveKey, haj] using h
      · simp [pyRemoveKey, haj, pyLookup, hak, ih h]

lemma pyLookup_dictOf_none (l : List TStream) (k : String) :
    ∀ d : List (String × TStream), pyLookup d k = none →
      (∀ s ∈ l, s.user_id ≠ k) →
      pyLookup (l.foldl (fun d s => pyDictInsert d s.user_id s) d) k = none := by
  induction l with
  | nil => intro d hd _; simpa using hd
  | cons s rest ih =>
    intro d hd hall
    simp only [List.foldl_cons]
    apply ih
    · rw [pyLookup_insert]
      have hk : ¬ k = s.user_id := fun hh => hall s (by simp) hh.symm
      rw [if_neg hk]
      exact hd
    · intro x hx
      exact hall x (List.mem_cons_of_mem _ hx)

lemma diffLoop_not_mem (max_age : Int) (now : Int) (s : TStream) :
    ∀ (cur : List TStream) (d : List (String × TStream)) (acc : List TStream),
      pyLookup d s.user_id = none → s ∉ acc →
      s ∉ (diffLoop max_age now d acc cur).2 := by
  intro cur
  induction cur with
  | nil =>
    intro d acc h1 h2
    simpa [diffLoop] using h2
  | cons e rest ih =>
    intro d acc h1 h2
    by_cases he : e.user_id = s.user_id
    · have hl : pyLookup d e.user_id = none := by rw [he]; exact h1
      simp only [diffLoop, hl]
      exact ih d acc h1 h2
    · have hne : s ≠ e := fun hh => he (by rw [hh])
      have h1' : pyLookup (pyRemoveKey d e.user_id) s.user_id = none :=
        pyLookup_removeKey_none d e.user_id s.user_id h1
      cases hl : pyLookup d e.user_id with
      | none =>
        simp only [diffLoop, hl]
        exact ih d acc h1 h2
      | some p =>
        simp only [diffLoop, hl]
        by_cases hc : p.id ≠ e.id ∧ stream_is_recent now p max_age = false
        · rw [if_pos hc]
          refine ih _ _ h1' ?_
          intro hmem
          rcases List.mem_append.mp hmem with hm | hm
          · exact h2 hm
          · exact hne (List.mem_singleton.mp hm)
        · rw [if_neg hc]
          exact ih _ _ h1' h2

/-- C1: the claim says a broadcaster present in both snapshots with a changed
stream id is reported new iff the previous record is older than `max_age`
hours. The code disagrees: `stream_is_recent` uses `timedelta.seconds`, the
seconds-within-the-day component, so a 30-hour-old previous record counts as
6 hours old and with `max_age = 24` the restart is not reported: the run
dispatches nothing even though the previous age of 30 hours exceeds 24. -/
theorem changed_id_old_stream_not_reported :
    mainRun (Except.ok [cNew]) (FileState.validObj [("g", [pOld])]) "g" 24
        false true true 108000
      = Except.ok ⟨[], some [("g", [cNew])]⟩
    ∧ (24 * 3600 : Int) < 108000 - pOld.started_at := by
  constructor
  · rfl
  · decide

/-- C2: the claim says a previous record absent from the current snapshot is
retained iff its age is at most `max_age` hours. The code disagrees: a
30-hour-old record of a broadcaster not currently live survives the eviction
filter (its `timedelta.seconds` age is 6 hours, at most 24) and is written
back to the cache although its true age of 30 hours exceeds `max_age`. -/
theorem stale_departed_record_retained :
    mainRun (Except.ok [cOther]) (FileState.validObj [("g", [pFar])]) "g" 24
        false true true 108000
      = Except.ok ⟨[], some [("g", [pFar, cOther])]⟩
    ∧ (24 * 3600 : Int) < 108000 - pFar.started_at := by
  constructor
  · rfl
  · decide

/-- C3: when the Platform Client reports failure, the run aborts with the
propagated exception: no result is produced, so nothing is dispatched and
`save_stream_cache` is never reached, leaving the cache file exactly as it
was. -/
theorem client_failure_leaves_cache_untouched (e : PyErr) (fs : FileState)
    (game : String) (max_age : Int) (no_cache socketCfg sockOk : Bool)
    (now : Int) :
    mainRun (Except.error e) fs game max_age no_cache socketCfg sockOk now
      = Except.error e := rfl

/-- C4 counterexample: the claim says every current record without a matching
previous record is classified new, but with the nonempty previous snapshot
`[pRecent]` (broadcaster u2) and the unmatched current record `cFresh`
(broadcaster u1) the run dispatches nothing: `cFresh` is not classified new. -/
theorem unmatched_current_not_new_cex :
    mainRun (Except.ok [cFresh]) (FileState.validObj [("g", [pRecent])]) "g" 24
        false true true 108000
      = Except.ok ⟨[], some [("g", [pRecent, cFresh])]⟩ := rfl

/-- C4 amended: with an empty previous list every current record is new and
nothing is retained (Scenario A holds); with a nonempty previous list, a
current record whose broadcaster matches no previous record is not classified
new. -/
theorem new_classification_amended (cur cur2 prev : List TStream)
    (max_age : Int) (now : Int) :
    noveltyDiff [] cur max_age now = (cur, [])
    ∧ (prev ≠ [] → ∀ s ∈ cur2, (∀ p ∈ prev, p.user_id ≠ s.user_id) →
        s ∉ (noveltyDiff prev cur2 max_age now).1) := by
  constructor
  · simp [noveltyDiff]
  · intro hne s _ hforall
    have hprev : prev.isEmpty = false := by
      cases prev with
      | nil => exact absurd rfl hne
      | cons a l => rfl
    simp only [noveltyDiff, hprev, Bool.false_eq_true, if_false]
    exact diffLoop_not_mem max_age now s cur2 (pyDictOfStreams prev) []
      (pyLookup_dictOf_none prev s.user_id [] rfl
        (fun p hp => hforall p hp)) (List.not_mem_nil s)

/-- C4 amended witness: Scenario A for the single record `cFresh`, and the
unmatched `cFresh` is not new against the nonempty previous list `[pRecent]`. -/
theorem new_classification_amended_witness :
    noveltyDiff [] [cFresh] 24 108000 = ([cFresh], [])
    ∧ ([pRecent] ≠ ([] : List TStream))
    ∧ pRecent.user_id ≠ cFresh.user_id
    ∧ cFresh ∉ (noveltyDiff [pRecent] [cFresh] 24 108000).1 :=
  ⟨(new_classification_amended [cFresh] [cFresh] [pRecent] 24 108000).1,
   by decide, by decide,
   (new_classification_amended [cFresh] [cFresh] [pRecent] 24 108000).2
     (by decide) cFresh (by decide) (by decide)⟩

/-- C5: the rate limiter of the IRC session. The first consultation after
construction (`_last_check is None`) is always permitted; from any state, two
consecutive consultations less than the configured interval apart are never
both permitted; and the two consultations made after construction are both
permitted whenever they are at least the interval apart. -/
theorem rate_limiter_spacing (I t1 t2 u1 u2 : Int) (st : Option Int) :
    (rateCheck none I t1).1 = true
    ∧ (u2 < u1 + I →
        ¬ ((rateCheck st I u1).1 = true
            ∧ (rateCheck (rateCheck st I u1).2 I u2).1 = true))
    ∧ (t1 + I ≤ t2 →
        (rateCheck none I t1).1 = true
        ∧ (rateCheck (rateCheck none I t1).2 I t2).1 = true) := by
  refine ⟨rfl, ?_, ?_⟩
  · intro hlt hboth
    obtain ⟨h1, h2⟩ := hboth
    have hupd : (rateCheck st I u1).2 = some u1 := by
      cases st with
      | none => rfl
      | some t =>
        simp only [rateCheck] at h1 ⊢
        by_cases hc : t + I ≤ u1
        · rw [if_pos hc]
        · rw [if_neg hc] at h1
          exact absurd h1 (by simp)
    rw [hupd] at h2
    simp only [rateCheck] at h2
    by_cases hc : u1 + I ≤ u2
    · omega
    · rw [if_neg hc] at h2
      exact absurd h2 (by simp)
  · intro hge
    refine ⟨rfl, ?_⟩
    simp only [rateCheck, if_pos hge]

/-- C5 witness: interval 30; the consultation at time 0 from a fresh limiter
is permitted; from a state last permitted at 0, consultations at 0 and 10
(less than 30 apart) are not both permitted; consultations at 0 and 40 from a
fresh limiter are both permitted. -/
theorem rate_limiter_spacing_witness :
    ((10 : Int) < 0 + 30)
    ∧ ((0 : Int) + 30 ≤ 40)
    ∧ (rateCheck none 30 0).1 = true
    ∧ ¬ ((rateCheck (some 0) 30 0).1 = true
          ∧ (rateCheck (rateCheck (some 0) 30 0).2 30 10).1 = true)
    ∧ ((rateCheck none 30 0).1 = true
        ∧ (rateCheck (rateCheck none 30 0).2 30 40).1 = true) :=
  ⟨by decide, by decide,
   (rate_limiter_spacing 30 0 40 0 10 (some 0)).1,
   (rate_limiter_spacing 30 0 40 0 10 (some 0)).2.1 (by decide),
   (rate_limiter_spacing 30 0 40 0 10 (some 0)).2.2 (by decide)⟩

/-- C6: the claim says no blacklisted channel URL ever appears in the reply.
The code removes blacklisted entries from the list it is iterating, so the
element following a removal is skipped: with the two adjacent blacklisted
streams `chA` and `chB`, channel `b` survives the scan and its URL `ub` is
sent in the reply line, although `b` is in the blacklist. -/
theorem adjacent_blacklisted_url_leaks :
    handleCommand stC6 "alice" "game" 0 [chA, chB]
      = (⟨"#room", "bot", ["a", "b"], [], true, some 0, 30, false⟩,
         [IrcEffect.send
           "PRIVMSG #room : alice: Current game streams include ub\r\n"])
    ∧ chB.channel.name ∈ stC6.blacklist := by
  constructor
  · rfl
  · decide

/-- C7 counterexample: the claim says the session sends a protocol-level quit
notice before closing. On the extracted command `quit` the session emits
exactly one effect, the socket close, and no send effect at all: the close
happens without any quit notice. -/
theorem quit_without_notice_cex :
    handleCommand stC7 "alice" "quit" 0 []
      = (⟨"#room", "bot", [], [], true, none, 30, true⟩, [IrcEffect.close])
    ∧ (handleCommand stC7 "alice" "quit" 0 []).2.any isSendEffect = false := by
  constructor
  · rfl
  · rfl

/-- C7 amended: on a room message addressed to the nickname whose extracted
text is the literal `quit`, the session closes the socket immediately,
entering the terminal closed state, without sending any protocol message
(no quit notice) first. -/
theorem quit_closes_abruptly (st : IrcState) (user : String) (now : Int)
    (api : List ChatStream) :
    handleCommand st user "quit" now api
      = (⟨st.room, st.nick, st.blacklist, st.games, st.registered,
          st.last_check, st.last_check_limit, true⟩, [IrcEffect.close]) := rfl

/-- C8: the claim says a D-Bus connection failure triggers exactly one
reconnect and one retry and later items are still attempted. In the code the
`except` handler evaluates `self.logger`, an attribute `__init__` never
defines (it sets `self.log`), so the first failing item raises
`AttributeError`: the run records a single notification attempt, no
reconnect, no retry, and the second item is never attempted. -/
theorem dbus_failure_aborts_broadcast :
    dbusBroadcast dFails [ds1, ds2]
      = ([DbusEv.notifyAttempt ds1], some PyErr.attributeError)
    ∧ dFails ds1 = true ∧ dFails ds2 = false := ⟨rfl, rfl, rfl⟩

/-- C9: the claim says every degraded cache-file state yields an empty
mapping and the run never dies. Missing and malformed files do degrade to the
empty dict, but an unreadable file makes `read_stream_cache` return the
Python list `[]`; with a nonempty current snapshot, `main` then calls `.get`
on that list and the run dies with `AttributeError`. -/
theorem unreadable_cache_crashes_run :
    mainRun (Except.ok [cFresh]) FileState.unreadable "g" 24 false true true
        108000
      = Except.error PyErr.attributeError
    ∧ read_stream_cache FileState.unreadable = CacheData.arr
    ∧ read_stream_cache FileState.missing = CacheData.obj []
    ∧ read_stream_cache FileState.malformed = CacheData.obj [] :=
  ⟨rfl, rfl, rfl, rfl⟩

/-- C10: a denied command leaves the session state untouched and produces no
effect: when the message is not `quit`, the last permitted time is `t`, and
`now` has not reached `t` plus the configured interval, `handle_read` only
logs, so `_last_check` keeps its prior value and the cooldown window is not
extended. -/
theorem denied_command_preserves_state (st : IrcState) (user message : String)
    (now t : Int) (api : List ChatStream) (hq : message ≠ "quit")
    (hl : st.last_check = some t) (hd : ¬ (t + st.last_check_limit ≤ now)) :
    handleCommand st user message now api = (st, []) := by
  simp only [handleCommand, if_neg hq, hl, rateCheck, if_neg hd]
  rfl

/-- C10 witness: with last permitted time 100, limit 30 and a command at time
110, the denial leaves the state exactly as it was and sends nothing. -/
theorem denied_command_preserves_state_witness :
    (("mygame" : String) ≠ "quit")
    ∧ stC10.last_check = some 100
    ∧ ¬ ((100 : Int) + stC10.last_check_limit ≤ 110)
    ∧ handleCommand stC10 "alice" "mygame" 110 [] = (stC10, []) :=
  ⟨by decide, rfl, by decide,
   denied_command_preserves_state stC10 "alice" "mygame" 110 100 []
     (by decide) rfl (by decide)⟩
